import Mathlib

/-!
Verification development for `gpt_oss_120b_server.py`: a script that loads a
causal language model and a tokenizer once at startup and exposes a single
`generate` function (encode prompt, autoregressive sampling bounded by
`max_new_tokens` with early stop on the end-of-sequence token, decode the full
output including the echoed prompt with special tokens stripped).

The third-party handles are embedded abstractly: a `Tokenizer` carries an
encoding map, a per-token decoding map, a special-token predicate and an
optional end-of-sequence token id; a `Model` carries a next-token sampler
(context, temperature, top_p and one random draw per step) plus its
training-mode flag.  The script's own logic — the startup sequence, the
argument values handed to the two loading calls, and the body of `generate` —
is translated directly from the source.
-/

/-- TokenizerHandle: vocabulary and text↔token mapping rules
(`AutoTokenizer.from_pretrained` result). -/
structure Tokenizer where
  encode : String → List Nat
  decodeTok : Nat → String
  isSpecial : Nat → Bool
  eos_token_id : Option Nat

/-- ModelHandle: next-token sampler (abstracting the network weights) together
with its training-mode flag (`model.eval()` clears it). -/
structure Model where
  sample : List Nat → ℚ → ℚ → Nat → Nat
  training : Bool

/-- `model.eval()`: switch the model to inference mode; returns the same
handle with the training flag cleared. -/
def Model.eval (m : Model) : Model := { m with training := false }

/-- `tokenizer.decode(ids, skip_special_tokens=...)`: concatenate the decoded
pieces of the token ids, dropping special control tokens when asked. -/
def Tokenizer.decode (tok : Tokenizer) (ids : List Nat) (skip_special_tokens : Bool) : String :=
  match ids with
  | [] => ""
  | t :: ts =>
      (if skip_special_tokens && tok.isSpecial t then "" else tok.decodeTok t)
        ++ tok.decode ts skip_special_tokens

/-- Gradio chat history: a sequence of prior (user, assistant) turns. -/
def History := List (String × String)

/-- The sampling loop inside `model.generate(**inputs, max_new_tokens=...,
temperature=..., top_p=..., do_sample=True, eos_token_id=...)`: starting from
the encoded prompt, sample one token per step (consuming one random draw per
step), append it to the context, stop when the end-of-sequence token is
produced or when `max_new_tokens` tokens have been generated.  The output
sequence includes the input tokens. -/
def genLoop (m : Model) (temperature top_p : ℚ) (eos_token_id : Option Nat)
    (rng : Nat → Nat) : Nat → Nat → List Nat → List Nat
  | 0, _, ctx => ctx
  | fuel + 1, step, ctx =>
      let t := m.sample ctx temperature top_p (rng step)
      if eos_token_id = some t then ctx ++ [t]
      else genLoop m temperature top_p eos_token_id rng fuel (step + 1) (ctx ++ [t])

/-- The token-level part of `generate`: `inputs = tokenizer(prompt)` followed by
`output_ids = model.generate(**inputs, ...)`. -/
def generateIds (tok : Tokenizer) (m : Model) (rng : Nat → Nat) (prompt : String)
    (max_new_tokens : Nat) (temperature top_p : ℚ) : List Nat :=
  genLoop m temperature top_p tok.eos_token_id rng max_new_tokens 0 (tok.encode prompt)

/-- `generate(prompt, history=None, max_new_tokens=256, temperature=0.7,
top_p=0.9)`: encode the prompt, run bounded sampling, decode the full output
(echoed prompt included) with `skip_special_tokens=True`.  `history` is
accepted but not used in the body. -/
def generate (tok : Tokenizer) (m : Model) (rng : Nat → Nat) (prompt : String)
    (history : Option History := none) (max_new_tokens : Nat := 256)
    (temperature : ℚ := 7/10) (top_p : ℚ := 9/10) : String :=
  tok.decode (generateIds tok m rng prompt max_new_tokens temperature top_p) true

/-- The process state shared by all `generate` calls: the two module-level
handles. -/
structure ProcState where
  tokenizer : Tokenizer
  model : Model

/-- One request served through the process state: reads `st.tokenizer` and
`st.model`, returns the decoded text; the body contains no assignment to
either handle, so the state comes back as it went in. -/
def generateCall (st : ProcState) (rng : Nat → Nat) (prompt : String)
    (history : Option History) (max_new_tokens : Nat) (temperature top_p : ℚ) :
    ProcState × String :=
  (st, generate st.tokenizer st.model rng prompt history max_new_tokens temperature top_p)

/-- `MODEL_ID = "openai/gpt-oss-120b"` (line 15). -/
def MODEL_ID : String := "openai/gpt-oss-120b"

/-- `HF_TOKEN = os.environ.get("HF_TOKEN")` (line 16): the single recognized
environment variable; absent means no credential. -/
def HF_TOKEN (env : String → Option String) : Option String := env "HF_TOKEN"

/-- Numeric representation for model parameters (`torch_dtype`). -/
inductive TorchDtype
  | float16
  | float32
  | bfloat16
deriving DecidableEq

/-- Bits per parameter of each numeric representation. -/
def TorchDtype.bits : TorchDtype → Nat
  | .float16 => 16
  | .float32 => 32
  | .bfloat16 => 16

/-- Device placement strategy (`device_map`). -/
inductive DeviceMap
  | auto
  | cpu
  | cuda (index : Nat)
deriving DecidableEq

/-- Keyword arguments of the `AutoTokenizer.from_pretrained` call
(lines 19–24). -/
structure TokenizerLoadArgs where
  model_id : String
  use_fast : Bool
  trust_remote_code : Bool
  token : Option String
deriving DecidableEq

/-- Keyword arguments of the `AutoModelForCausalLM.from_pretrained` call
(lines 27–33). -/
structure ModelLoadArgs where
  model_id : String
  torch_dtype : TorchDtype
  device_map : DeviceMap
  trust_remote_code : Bool
  token : Option String
deriving DecidableEq

/-- The argument tuple the script hands to the tokenizer load for a given
credential. -/
def tokenizerLoadArgsOf (hf_token : Option String) : TokenizerLoadArgs :=
  { model_id := MODEL_ID, use_fast := true, trust_remote_code := true, token := hf_token }

/-- The argument tuple the script hands to the model load for a given
credential. -/
def modelLoadArgsOf (hf_token : Option String) : ModelLoadArgs :=
  { model_id := MODEL_ID, torch_dtype := .float16, device_map := .auto
    trust_remote_code := true, token := hf_token }

/-- Errors that can abort loading (network, authorization, out-of-memory). -/
inductive LoadError
  | network
  | authorization
  | oom
deriving DecidableEq

/-- The ready state reached at the end of startup: the two initialized handles
together with the argument tuples that produced them. -/
structure ServerState where
  tokenizer : Tokenizer
  model : Model
  tokArgs : TokenizerLoadArgs
  modelArgs : ModelLoadArgs

/-- The module-level startup sequence (lines 15–35): read the credential from
the environment, load the tokenizer, load the model (each load may fail, and a
failure aborts the whole startup — the exception propagates), put the model in
inference mode, and only then assemble the ready state that serving uses. -/
def scriptStartup (env : String → Option String)
    (autoTokenizerFromPretrained : TokenizerLoadArgs → Except LoadError Tokenizer)
    (autoModelFromPretrained : ModelLoadArgs → Except LoadError Model) :
    Except LoadError ServerState :=
  let hf_token := HF_TOKEN env
  let targs := tokenizerLoadArgsOf hf_token
  match autoTokenizerFromPretrained targs with
  | .error e => .error e
  | .ok tokenizer =>
      let margs := modelLoadArgsOf hf_token
      match autoModelFromPretrained margs with
      | .error e => .error e
      | .ok model0 => .ok ⟨tokenizer, model0.eval, targs, margs⟩

/-- Whether the process reached the ready/serving state (`demo.launch` only
runs after the loads succeeded). -/
def reachesReady (r : Except LoadError ServerState) : Bool :=
  match r with
  | .ok _ => true
  | .error _ => false

/-- A concrete character-level tokenizer used to exercise the definitions:
each character is one token (its code point), token 0 is the special
end-of-sequence token. -/
def charTokenizer : Tokenizer where
  encode s := s.data.map Char.toNat
  decodeTok n := String.singleton (Char.ofNat n)
  isSpecial n := n == 0
  eos_token_id := some 0

/-- A concrete model whose sampler always produces token 98. -/
def constModel : Model where
  sample _ _ _ _ := 98
  training := true

/-- A concrete model whose sampler always produces the end-of-sequence
token 0. -/
def eosModel : Model where
  sample _ _ _ _ := 0
  training := true

/-- A concrete environment with no variables set. -/
def stubEnv : String → Option String := fun _ => none

/-- A concrete environment holding only the credential variable. -/
def envWithToken : String → Option String :=
  fun k => if k = "HF_TOKEN" then some "secret" else none

/-- A concrete environment agreeing with `envWithToken` on the credential
variable but differing everywhere else. -/
def envWithNoise : String → Option String :=
  fun k => if k = "HF_TOKEN" then some "secret" else some "noise"

/-- A concrete tokenizer loader that always succeeds. -/
def stubTokLoad : TokenizerLoadArgs → Except LoadError Tokenizer :=
  fun _ => .ok charTokenizer

/-- A concrete model loader that always succeeds. -/
def stubModelLoad : ModelLoadArgs → Except LoadError Model :=
  fun _ => .ok constModel

/-- A concrete tokenizer loader that fails with a network error. -/
def failTokLoad : TokenizerLoadArgs → Except LoadError Tokenizer :=
  fun _ => .error .network

/-- A concrete model loader that fails with an out-of-memory error. -/
def failModelLoad : ModelLoadArgs → Except LoadError Model :=
  fun _ => .error .oom

/-- The ready state produced by the stub loaders under the empty
environment. -/
def stubReadyState : ServerState :=
  ⟨charTokenizer, constModel.eval, tokenizerLoadArgsOf none, modelLoadArgsOf none⟩

/-- Decoding distributes over appending token sequences. -/
theorem Tokenizer.decode_append (tok : Tokenizer) (a b : List Nat) (s : Bool) :
    tok.decode (a ++ b) s = tok.decode a s ++ tok.decode b s := by
  induction a with
  | nil => simp [Tokenizer.decode, String.empty_append]
  | cons t ts ih =>
      simp only [List.cons_append, Tokenizer.decode, List.append_eq, ih, String.append_assoc]

/-- The sampling loop adds at most `fuel` tokens to the context. -/
theorem genLoop_length (m : Model) (temperature top_p : ℚ) (eos : Option Nat)
    (rng : Nat → Nat) : ∀ (fuel step : Nat) (ctx : List Nat),
    (genLoop m temperature top_p eos rng fuel step ctx).length ≤ ctx.length + fuel := by
  intro fuel
  induction fuel with
  | zero => intro step ctx; simp [genLoop]
  | succ fuel ih =>
      intro step ctx
      simp only [genLoop]
      split
      · simp only [List.length_append, List.length_cons, List.length_nil]
        omega
      · have h := ih (step + 1) (ctx ++ [m.sample ctx temperature top_p (rng step)])
        simp only [List.length_append, List.length_cons, List.length_nil] at h
        omega

/-- The sampling loop only ever appends to the context it is given. -/
theorem genLoop_eq_append (m : Model) (temperature top_p : ℚ) (eos : Option Nat)
    (rng : Nat → Nat) : ∀ (fuel step : Nat) (ctx : List Nat),
    ∃ tail, genLoop m temperature top_p eos rng fuel step ctx = ctx ++ tail := by
  intro fuel
  induction fuel with
  | zero => intro step ctx; exact ⟨[], by simp [genLoop]⟩
  | succ fuel ih =>
      intro step ctx
      simp only [genLoop]
      split
      · exact ⟨[m.sample ctx temperature top_p (rng step)], rfl⟩
      · obtain ⟨tail, ht⟩ := ih (step + 1) (ctx ++ [m.sample ctx temperature top_p (rng step)])
        exact ⟨m.sample ctx temperature top_p (rng step) :: tail, by rw [ht]; simp⟩

/-- The sampling loop consumes randomness only through the draws
`rng 0, rng 1, …`: pointwise equal randomness gives equal outputs. -/
theorem genLoop_rng_congr (m : Model) (temperature top_p : ℚ) (eos : Option Nat)
    (rng1 rng2 : Nat → Nat) (h : ∀ i, rng1 i = rng2 i) :
    ∀ (fuel step : Nat) (ctx : List Nat),
    genLoop m temperature top_p eos rng1 fuel step ctx
      = genLoop m temperature top_p eos rng2 fuel step ctx := by
  intro fuel
  induction fuel with
  | zero => intro step ctx; rfl
  | succ fuel ih =>
      intro step ctx
      simp only [genLoop, h]
      split
      · rfl
      · exact ih (step + 1) _

/-- A successful startup's state records exactly the two load calls that
produced it: both argument tuples, the tokenizer result, and the model
result put into inference mode. -/
theorem scriptStartup_ok_spec (env : String → Option String)
    (f : TokenizerLoadArgs → Except LoadError Tokenizer)
    (g : ModelLoadArgs → Except LoadError Model) (s : ServerState)
    (hs : scriptStartup env f g = .ok s) :
    s.tokArgs = tokenizerLoadArgsOf (HF_TOKEN env) ∧
    s.modelArgs = modelLoadArgsOf (HF_TOKEN env) ∧
    f s.tokArgs = .ok s.tokenizer ∧
    ∃ m0, g s.modelArgs = .ok m0 ∧ s.model = m0.eval := by
  simp only [scriptStartup] at hs
  cases htok : f (tokenizerLoadArgsOf (HF_TOKEN env)) with
  | error e => simp only [htok] at hs; exact Except.noConfusion hs
  | ok t =>
      simp only [htok] at hs
      cases hm : g (modelLoadArgsOf (HF_TOKEN env)) with
      | error e => simp only [hm] at hs; exact Except.noConfusion hs
      | ok m0 =>
          simp only [hm] at hs
          cases hs
          exact ⟨rfl, rfl, htok, m0, hm, rfl⟩

/-- C1: for a non-empty prompt, the returned value is the decoded prompt
followed by the generated continuation (the input tokens are included in the
decoded output), so the returned text is at least as long as the encoded
prompt decoded back to text. -/
theorem generate_echoes_prompt (tok : Tokenizer) (m : Model) (rng : Nat → Nat)
    (prompt : String) (history : Option History) (max_new_tokens : Nat)
    (temperature top_p : ℚ) (hp : prompt ≠ "") :
    ∃ continuation,
      generate tok m rng prompt history max_new_tokens temperature top_p
        = tok.decode (tok.encode prompt) true ++ continuation ∧
      (tok.decode (tok.encode prompt) true).length
        ≤ (generate tok m rng prompt history max_new_tokens temperature top_p).length := by
  obtain ⟨tail, ht⟩ := genLoop_eq_append m temperature top_p tok.eos_token_id rng
    max_new_tokens 0 (tok.encode prompt)
  refine ⟨tok.decode tail true, ?_, ?_⟩
  · simp only [generate, generateIds]
    rw [ht, Tokenizer.decode_append]
  · simp only [generate, generateIds]
    rw [ht, Tokenizer.decode_append, String.length_append]
    omega

/-- Witness for C1 at the concrete prompt "ab" with the character tokenizer
and the constant sampler. -/
theorem generate_echoes_prompt_witness :
    ("ab" : String) ≠ "" ∧
    ∃ continuation,
      generate charTokenizer constModel (fun _ => 0) "ab" none 3 (7/10) (9/10)
        = charTokenizer.decode (charTokenizer.encode "ab") true ++ continuation ∧
      (charTokenizer.decode (charTokenizer.encode "ab") true).length
        ≤ (generate charTokenizer constModel (fun _ => 0) "ab" none 3 (7/10) (9/10)).length :=
  ⟨by decide,
    generate_echoes_prompt charTokenizer constModel (fun _ => 0) "ab" none 3
      (7/10) (9/10) (by decide)⟩

/-- C2: the history argument does not influence the result of generate — with
the same sampling randomness, any two history values give the same returned
text; history is never incorporated into the token context. -/
theorem generate_ignores_history (tok : Tokenizer) (m : Model) (rng : Nat → Nat)
    (prompt : String) (max_new_tokens : Nat) (temperature top_p : ℚ)
    (h1 h2 : Option History) :
    generate tok m rng prompt h1 max_new_tokens temperature top_p
      = generate tok m rng prompt h2 max_new_tokens temperature top_p := rfl

/-- C3: sampling always terminates with at most `max_new_tokens` new tokens
(the output token sequence is at most the encoded prompt length plus
`max_new_tokens` long), and stops immediately once the sampled token is the
end-of-sequence token. -/
theorem generate_token_bound (tok : Tokenizer) (m : Model) (rng : Nat → Nat)
    (prompt : String) (max_new_tokens : Nat) (temperature top_p : ℚ) :
    (generateIds tok m rng prompt max_new_tokens temperature top_p).length
      ≤ (tok.encode prompt).length + max_new_tokens ∧
    ∀ (fuel step : Nat) (ctx : List Nat),
      genLoop m temperature top_p (some (m.sample ctx temperature top_p (rng step))) rng
          (fuel + 1) step ctx
        = ctx ++ [m.sample ctx temperature top_p (rng step)] := by
  constructor
  · exact genLoop_length m temperature top_p tok.eos_token_id rng max_new_tokens 0
      (tok.encode prompt)
  · intro fuel step ctx
    simp [genLoop]

/-- C4: with max_new_tokens = 0 the returned text is exactly the decoded
prompt, with no new tokens appended. -/
theorem generate_zero_max_new_tokens (tok : Tokenizer) (m : Model) (rng : Nat → Nat)
    (prompt : String) (history : Option History) (temperature top_p : ℚ) :
    generate tok m rng prompt history 0 temperature top_p
      = tok.decode (tok.encode prompt) true := rfl

/-- C5: the handles are initialized (exactly once, by the two load calls)
before any serving state exists, and a failure of either load keeps the
process out of the ready state. -/
theorem startup_initializes_handles_before_serving (env : String → Option String)
    (f : TokenizerLoadArgs → Except LoadError Tokenizer)
    (g : ModelLoadArgs → Except LoadError Model) :
    (∀ s, scriptStartup env f g = .ok s →
        f s.tokArgs = .ok s.tokenizer ∧
        ∃ m0, g s.modelArgs = .ok m0 ∧ s.model = m0.eval) ∧
    (∀ e, f (tokenizerLoadArgsOf (HF_TOKEN env)) = .error e →
        scriptStartup env f g = .error e ∧
        reachesReady (scriptStartup env f g) = false) ∧
    (∀ e, g (modelLoadArgsOf (HF_TOKEN env)) = .error e →
        reachesReady (scriptStartup env f g) = false) := by
  refine ⟨?_, ?_, ?_⟩
  · intro s hs
    obtain ⟨-, -, h3, h4⟩ := scriptStartup_ok_spec env f g s hs
    exact ⟨h3, h4⟩
  · intro e he
    constructor
    · simp only [scriptStartup, he]
    · simp only [scriptStartup, he, reachesReady]
  · intro e he
    cases htok : f (tokenizerLoadArgsOf (HF_TOKEN env)) with
    | error e2 => simp [scriptStartup, htok, reachesReady]
    | ok t => simp [scriptStartup, htok, he, reachesReady]

/-- Witness for C5: the successful stub startup records its load calls, a
failing tokenizer load aborts startup with its error, and a failing model
load keeps the process out of the ready state. -/
theorem startup_initializes_witness :
    (stubTokLoad stubReadyState.tokArgs = .ok stubReadyState.tokenizer ∧
      ∃ m0, stubModelLoad stubReadyState.modelArgs = .ok m0 ∧
        stubReadyState.model = m0.eval) ∧
    (scriptStartup stubEnv failTokLoad stubModelLoad = .error .network ∧
      reachesReady (scriptStartup stubEnv failTokLoad stubModelLoad) = false) ∧
    reachesReady (scriptStartup stubEnv stubTokLoad failModelLoad) = false :=
  ⟨(startup_initializes_handles_before_serving stubEnv stubTokLoad stubModelLoad).1
      stubReadyState rfl,
    (startup_initializes_handles_before_serving stubEnv failTokLoad stubModelLoad).2.1
      .network rfl,
    (startup_initializes_handles_before_serving stubEnv stubTokLoad failModelLoad).2.2
      .oom rfl⟩

/-- C6: startup reads exactly one environment variable (the credential,
absent meaning none), and both load calls receive that same credential
together with the fixed constant model identifier — the startup result
depends on the environment only through that variable and on the loaders
only through their values at those argument tuples. -/
theorem loader_env_and_credential (env env' : String → Option String)
    (f f' : TokenizerLoadArgs → Except LoadError Tokenizer)
    (g g' : ModelLoadArgs → Except LoadError Model)
    (henv : env "HF_TOKEN" = env' "HF_TOKEN")
    (htok : f (tokenizerLoadArgsOf (HF_TOKEN env))
      = f' (tokenizerLoadArgsOf (HF_TOKEN env)))
    (hmod : g (modelLoadArgsOf (HF_TOKEN env))
      = g' (modelLoadArgsOf (HF_TOKEN env))) :
    scriptStartup env f g = scriptStartup env' f' g' ∧
    HF_TOKEN env = env "HF_TOKEN" ∧
    (tokenizerLoadArgsOf (HF_TOKEN env)).token = HF_TOKEN env ∧
    (modelLoadArgsOf (HF_TOKEN env)).token = HF_TOKEN env ∧
    (tokenizerLoadArgsOf (HF_TOKEN env)).model_id = MODEL_ID ∧
    (modelLoadArgsOf (HF_TOKEN env)).model_id = MODEL_ID := by
  have henv2 : HF_TOKEN env = HF_TOKEN env' := henv
  refine ⟨?_, rfl, rfl, rfl, rfl, rfl⟩
  simp only [scriptStartup, ← henv2, htok, hmod]

/-- Witness for C6: two environments agreeing only on the credential
variable give the same startup result with the stub loaders. -/
theorem loader_env_and_credential_witness :
    scriptStartup envWithToken stubTokLoad stubModelLoad
      = scriptStartup envWithNoise stubTokLoad stubModelLoad ∧
    HF_TOKEN envWithToken = envWithToken "HF_TOKEN" ∧
    (tokenizerLoadArgsOf (HF_TOKEN envWithToken)).token = HF_TOKEN envWithToken ∧
    (modelLoadArgsOf (HF_TOKEN envWithToken)).token = HF_TOKEN envWithToken ∧
    (tokenizerLoadArgsOf (HF_TOKEN envWithToken)).model_id = MODEL_ID ∧
    (modelLoadArgsOf (HF_TOKEN envWithToken)).model_id = MODEL_ID :=
  loader_env_and_credential envWithToken envWithNoise stubTokLoad stubTokLoad
    stubModelLoad stubModelLoad (by decide) rfl rfl

/-- C7: any successfully loaded state used automatic device placement and the
reduced 16-bit numeric representation for the model, and the fast
tokenization path for the tokenizer. -/
theorem load_placement_and_precision (env : String → Option String)
    (f : TokenizerLoadArgs → Except LoadError Tokenizer)
    (g : ModelLoadArgs → Except LoadError Model) (s : ServerState)
    (hs : scriptStartup env f g = .ok s) :
    s.modelArgs.device_map = DeviceMap.auto ∧
    s.modelArgs.torch_dtype = TorchDtype.float16 ∧
    TorchDtype.float16.bits < TorchDtype.float32.bits ∧
    s.tokArgs.use_fast = true := by
  obtain ⟨h1, h2, -, -⟩ := scriptStartup_ok_spec env f g s hs
  rw [h1, h2]
  exact ⟨rfl, rfl, by decide, rfl⟩

/-- Witness for C7 at the stub startup. -/
theorem load_placement_and_precision_witness :
    stubReadyState.modelArgs.device_map = DeviceMap.auto ∧
    stubReadyState.modelArgs.torch_dtype = TorchDtype.float16 ∧
    TorchDtype.float16.bits < TorchDtype.float32.bits ∧
    stubReadyState.tokArgs.use_fast = true :=
  load_placement_and_precision stubEnv stubTokLoad stubModelLoad stubReadyState rfl

/-- C8: the default sampling parameters of generate are
max_new_tokens = 256, temperature = 0.7 and top_p = 0.9 (with no history). -/
theorem generate_default_parameters (tok : Tokenizer) (m : Model)
    (rng : Nat → Nat) (prompt : String) :
    generate tok m rng prompt
      = generate tok m rng prompt none 256 (7/10) (9/10) := rfl

/-- C9: serving a request leaves the process state untouched — the model and
tokenizer handles after a generate call are the ones produced at load time. -/
theorem generate_preserves_handles (st : ProcState) (rng : Nat → Nat)
    (prompt : String) (history : Option History) (max_new_tokens : Nat)
    (temperature top_p : ℚ) :
    (generateCall st rng prompt history max_new_tokens temperature top_p).1 = st ∧
    (generateCall st rng prompt history max_new_tokens temperature top_p).1.model
      = st.model ∧
    (generateCall st rng prompt history max_new_tokens temperature top_p).1.tokenizer
      = st.tokenizer := ⟨rfl, rfl, rfl⟩

/-- C10: generate is deterministic modulo the sampler's randomness — equal
arguments and pointwise equal random draws give equal returned strings, and a
second call through the returned process state repeats the first (no hidden
per-call state). -/
theorem generate_deterministic (tok : Tokenizer) (m : Model)
    (rng1 rng2 : Nat → Nat) (prompt : String) (history : Option History)
    (max_new_tokens : Nat) (temperature top_p : ℚ)
    (h : ∀ i, rng1 i = rng2 i) :
    generate tok m rng1 prompt history max_new_tokens temperature top_p
      = generate tok m rng2 prompt history max_new_tokens temperature top_p ∧
    (generateCall ⟨tok, m⟩ rng1 prompt history max_new_tokens temperature top_p).2
      = (generateCall
          (generateCall ⟨tok, m⟩ rng1 prompt history max_new_tokens temperature top_p).1
          rng1 prompt history max_new_tokens temperature top_p).2 := by
  constructor
  · simp only [generate, generateIds]
    rw [genLoop_rng_congr m temperature top_p tok.eos_token_id rng1 rng2 h
      max_new_tokens 0 (tok.encode prompt)]
  · rfl

/-- Witness for C10 with two syntactically different but pointwise equal
randomness streams. -/
theorem generate_deterministic_witness :
    generate charTokenizer constModel (fun _ => 0) "a" none 2 (7/10) (9/10)
      = generate charTokenizer constModel (fun i => i - i) "a" none 2 (7/10) (9/10) ∧
    (generateCall ⟨charTokenizer, constModel⟩ (fun _ => 0) "a" none 2 (7/10) (9/10)).2
      = (generateCall
          (generateCall ⟨charTokenizer, constModel⟩ (fun _ => 0) "a" none 2
            (7/10) (9/10)).1
          (fun _ => 0) "a" none 2 (7/10) (9/10)).2 :=
  generate_deterministic charTokenizer constModel (fun _ => 0) (fun i => i - i)
    "a" none 2 (7/10) (9/10) (fun i => (Nat.sub_self i).symm)
